import Mathlib

/-!
Verification of the JARVIS desktop-automation dispatch layer.

Shallow embedding of the three Python modules:
  * `src/lib/automation.py`        — the Automation Executor operations
  * `src/lib/action_processor.py`  — JSON dispatch (`process_action`, `main`)
  * `src/lib/automation_runner.py` — two-argument dispatch (`main`)

External collaborators (the `json` parser, `webbrowser`, `pyautogui`,
`subprocess`, `time`, `os.path.expanduser`) are modelled through an
environment `Env` and an event trace; the repository code itself is
translated function by function.
-/

/-- A parsed JSON value, as produced by Python `json.loads`.  `obj` models the
resulting `dict` (key resolution of duplicates is the parser's business,
upstream of the code under study), `num` models JSON numbers (the claims never
involve non-integer numbers). -/
inductive Json where
  | null
  | bool (b : Bool)
  | num (n : Int)
  | str (s : String)
  | arr (xs : List Json)
  | obj (fields : List (String × Json))

/-- Python truthiness (`if not x`) of a parsed JSON value. -/
def Json.truthy : Json → Bool
  | .null => false
  | .bool b => b
  | .num n => n != 0
  | .str s => s != ""
  | .arr xs => !xs.isEmpty
  | .obj fs => !fs.isEmpty

/-- The Python type name of a JSON value, as it appears in `AttributeError`
messages such as `'list' object has no attribute 'get'`. -/
def Json.typeName : Json → String
  | .null => "NoneType"
  | .bool _ => "bool"
  | .num _ => "int"
  | .str _ => "str"
  | .arr _ => "list"
  | .obj _ => "dict"

/-- Python `str()` of a JSON value, used by the f-string prints.  Exact for the
scalar cases the claims exercise; container rendering is abbreviated (no claim
interpolates a container into a message). -/
def Json.pyStr : Json → String
  | .null => "None"
  | .bool true => "True"
  | .bool false => "False"
  | .num n => toString n
  | .str s => s
  | .arr _ => "[...]"
  | .obj _ => "\x7b...\x7d"

/-- Python `==` between a JSON value and a string literal: true only when the
value is that very string. -/
def Json.eqStr : Json → String → Bool
  | .str s, t => s == t
  | _, _ => false

/-- Is the value a JSON object (a Python `dict` after parsing)? -/
def Json.isObj : Json → Bool
  | .obj _ => true
  | _ => false

/-- Key lookup in a parsed object (Python `dict` access; keys are unique after
`json.loads`). -/
def lookupField : List (String × Json) → String → Option Json
  | [], _ => none
  | (k, v) :: rest, key => if k = key then some v else lookupField rest key

/-- Python exceptions that the embedded code can raise or catch. -/
inductive Exn where
  | jsonDecode (doc : String)
  | attrError (msg : String)
  | typeError (msg : String)
  | osError (msg : String)
deriving DecidableEq

/-- Python `str(e)` of an exception, as interpolated into the error prints.
(The `jsonDecode` rendering is best effort; `process_action` never prints it.) -/
def Exn.message : Exn → String
  | .jsonDecode _ => "Expecting value: line 1 column 1 (char 0)"
  | .attrError m => m
  | .typeError m => m
  | .osError m => m

/-- Python `dict.get(key)` (default `None`): on a non-dict value it raises
`AttributeError`, which is what `action_data.get(...)` does when the parsed
JSON is not an object. -/
def Json.dictGet : Json → String → Except Exn (Option Json)
  | .obj fs, key => .ok (lookupField fs key)
  | j, _ => .error (.attrError ("\x27" ++ j.typeName ++ "\x27 object has no attribute \x27get\x27"))

/-- Python `dict.get(key, default)`: same, with an explicit default. -/
def Json.dictGetD : Json → String → Json → Except Exn Json
  | .obj fs, key, dflt => .ok ((lookupField fs key).getD dflt)
  | j, _, _ => .error (.attrError ("\x27" ++ j.typeName ++ "\x27 object has no attribute \x27get\x27"))

/-- One external OS-level side effect issued by the Executor. -/
inductive Event where
  | browserOpen (url : String)
  | sleep (secs : Nat)
  | keyWrite (text : String)
  | keyPress (key : String)
  | popen (argv : List String)
deriving DecidableEq

/-- Observable behaviour of a run: the printed lines and the OS events, in
order. -/
structure Effects where
  out : List String
  events : List Event
deriving DecidableEq

/-- The host environment: the outcome of `json.loads` on a given document
(`none` models `json.JSONDecodeError`), the user profile directory returned by
`os.path.expanduser`, and whether `subprocess.Popen` raises for a given argv
(`some msg` models an `OSError` whose `str()` is `msg`). -/
structure Env where
  parse : String → Option Json
  home : String
  popenError : List String → Option String

/-- `automation.search_google` (src/lib/automation.py lines 7-27): print, open
the browser on Google, sleep 2 seconds, type the query, press enter, print,
return `True`.  `pyautogui.write` on a non-string raises `TypeError` after the
browser has already been opened. -/
def search_google (query : Json) : Effects × Except Exn Bool :=
  let banner := "[JARVIS] Searching Google for: \x27" ++ query.pyStr ++ "\x27"
  match query with
  | .str s =>
      (⟨[banner, "[JARVIS] Search completed for: \x27" ++ s ++ "\x27"],
        [.browserOpen "https://www.google.com", .sleep 2, .keyWrite s, .keyPress "enter"]⟩,
       .ok true)
  | _ =>
      (⟨[banner], [.browserOpen "https://www.google.com", .sleep 2]⟩,
       .error (.typeError ("\x27" ++ query.typeName ++ "\x27 object is not iterable")))

/-- `automation.open_web_app` (src/lib/automation.py lines 29-39): print, open
the URL in the default browser, print, return `True` unconditionally
(`webbrowser.open` is modelled as total). -/
def open_web_app (url : Json) : Effects × Except Exn Bool :=
  (⟨["[JARVIS] Opening web app: " ++ url.pyStr, "[JARVIS] Opened web app: " ++ url.pyStr],
    [.browserOpen url.pyStr]⟩,
   .ok true)

/-- Python `str.lower()`, character by character.  (Core `String.toLower` is
the same mapping but is not kernel-reducible, so concrete runs could not be
evaluated with it.) -/
def strLower (s : String) : String := String.mk (s.data.map Char.toLower)

/-- The argv handed to `subprocess.Popen` by `open_desktop_app` for an already
lower-cased name: the fixed alias table, falling back to the (lower-cased) name
itself. -/
def launchArgv (env : Env) (n : String) : List String :=
  if n = "spotify" then [env.home ++ "\\AppData\\Roaming\\Spotify\\Spotify.exe"]
  else if n = "notepad" then ["notepad"]
  else if n = "calculator" then ["calc"]
  else if n = "vscode" ∨ n = "visual studio code" then ["code"]
  else if n = "explorer" ∨ n = "file explorer" then ["explorer"]
  else [n]

/-- `automation.open_desktop_app` (src/lib/automation.py lines 41-80): print
the original name, rebind `app_name` to its lower case, match the alias table
(falling back to launching `[app_name]` literally), catch any exception from
`Popen` and return `False`, otherwise return `True` without waiting.  The
initial `app_name.lower()` sits before the `try`, so on a non-string argument
the `AttributeError` propagates to the caller. -/
def open_desktop_app (env : Env) (appName : Json) : Effects × Except Exn Bool :=
  let banner := "[JARVIS] Launching desktop app: " ++ appName.pyStr
  match appName with
  | .str s =>
      let name := strLower s
      let argv := launchArgv env name
      match env.popenError argv with
      | some m =>
          (⟨[banner, "[JARVIS] Error launching " ++ name ++ ": " ++ m], [.popen argv]⟩,
           .ok false)
      | none =>
          (⟨[banner, "[JARVIS] Successfully launched: " ++ name], [.popen argv]⟩,
           .ok true)
  | _ =>
      (⟨[banner], []⟩,
       .error (.attrError ("\x27" ++ appName.typeName ++ "\x27 object has no attribute \x27lower\x27")))

/-- The Automation Executor interface: the three operations
`process_action` can dispatch to.  Quantifying theorems over an arbitrary
`Executor` makes "invokes exactly one Executor operation" a statement about
every possible executor, not just the real one. -/
structure Executor where
  search_google : Json → Effects × Except Exn Bool
  open_web_app : Json → Effects × Except Exn Bool
  open_desktop_app : Json → Effects × Except Exn Bool

/-- The executor actually wired in by `action_processor.py` (`import
automation`). -/
def realExecutor (env : Env) : Executor :=
  { search_google := search_google
    open_web_app := open_web_app
    open_desktop_app := open_desktop_app env }

/-- The expression `action_data.get("params", \x7b\x7d)` once `action_data` is
the object with fields `fs`. -/
def paramsOf (fs : List (String × Json)) : Json :=
  (lookupField fs "params").getD (Json.obj [])

/-- The `try:` block of `action_processor.process_action` (lines 19-54),
parametrised by the executor: parse, read `action` and `params`, validate, and
dispatch.  A `.error` result is an exception about to reach the `except`
clauses. -/
def processActionBodyWith (ex : Executor) (env : Env) (actionJson : String) :
    Effects × Except Exn Bool :=
  match env.parse actionJson with
  | none => (⟨[], []⟩, .error (.jsonDecode actionJson))
  | some actionData =>
    match actionData.dictGet "action" with
    | .error e => (⟨[], []⟩, .error e)
    | .ok aOpt =>
      match actionData.dictGetD "params" (Json.obj []) with
      | .error e => (⟨[], []⟩, .error e)
      | .ok params =>
        let actionType := aOpt.getD Json.null
        if !actionType.truthy then
          (⟨["Error: No action specified in the JSON"], []⟩, .ok false)
        else if actionType.eqStr "search_google" then
          match params.dictGet "query" with
          | .error e => (⟨[], []⟩, .error e)
          | .ok qOpt =>
            let query := qOpt.getD Json.null
            if !query.truthy then
              (⟨["Error: No query provided for search_google action"], []⟩, .ok false)
            else ex.search_google query
        else if actionType.eqStr "open_web_app" then
          match params.dictGet "url" with
          | .error e => (⟨[], []⟩, .error e)
          | .ok uOpt =>
            let url := uOpt.getD Json.null
            if !url.truthy then
              (⟨["Error: No URL provided for open_web_app action"], []⟩, .ok false)
            else ex.open_web_app url
        else if actionType.eqStr "open_desktop_app" then
          match params.dictGet "app_name" with
          | .error e => (⟨[], []⟩, .error e)
          | .ok nOpt =>
            let appName := nOpt.getD Json.null
            if !appName.truthy then
              (⟨["Error: No app_name provided for open_desktop_app action"], []⟩, .ok false)
            else ex.open_desktop_app appName
        else
          (⟨["Error: Unknown action type \x27" ++ actionType.pyStr ++ "\x27"], []⟩, .ok false)

/-- `action_processor.process_action`, executor-parametric: the `try:` body
wrapped by `except json.JSONDecodeError` and then `except Exception as e`
(lines 56-61). -/
def processActionWith (ex : Executor) (env : Env) (actionJson : String) :
    Effects × Bool :=
  match processActionBodyWith ex env actionJson with
  | (eff, .ok success) => (eff, success)
  | (eff, .error (.jsonDecode _)) =>
      (⟨eff.out ++ ["Error: Invalid JSON format: " ++ actionJson], eff.events⟩, false)
  | (eff, .error e) =>
      (⟨eff.out ++ ["Error processing action: " ++ e.message], eff.events⟩, false)

/-- `action_processor.process_action` with the real `automation` executor. -/
def process_action (env : Env) (actionJson : String) : Effects × Bool :=
  processActionWith (realExecutor env) env actionJson

/-- The usage line of `action_processor.main`.  In the source this print (line
70) is a Python `SyntaxError` — the inner double quotes are not escaped — so
the module as committed cannot load at all; the literal below is the evident
intended string. -/
def processorUsageLine : String :=
  "Usage: python action_processor.py \x27\x7b\"action\": \"search_google\", " ++
    "\"params\": \x7b\"query\": \"example\"\x7d\x7d\x27"

/-- `action_processor.main` (lines 63-77): usage error on missing argument,
otherwise run `process_action` on `sys.argv[1]` and exit 1 exactly when it
returns a falsy result.  The second component is the process exit code. -/
def action_processor_main (env : Env) (argv : List String) : Effects × Nat :=
  match argv with
  | _ :: actionJson :: _ =>
      let r := process_action env actionJson
      (r.fst, if r.snd then 0 else 1)
  | _ =>
      (⟨["Error: No action JSON provided", processorUsageLine], []⟩, 1)

/-- `automation_runner.main` (src/lib/automation_runner.py lines 6-33): usage
error unless `sys.argv` has at least three entries, then dispatch on
`sys.argv[1]` inside a `try`.  The boolean the operation returns is ignored;
`except Exception` converts an escaping exception into exit code 1, and the
unknown-command branch calls `sys.exit(1)` (a `SystemExit`, which `except
Exception` does not catch). -/
def automation_runner_main (env : Env) (argv : List String) : Effects × Nat :=
  match argv with
  | _ :: commandType :: parameter :: _ =>
      let dispatched : Option (Effects × Except Exn Bool) :=
        if commandType = "search_google" then some (search_google (Json.str parameter))
        else if commandType = "open_web_app" then some (open_web_app (Json.str parameter))
        else if commandType = "open_desktop_app" then some (open_desktop_app env (Json.str parameter))
        else none
      match dispatched with
      | some (eff, .ok _) => (eff, 0)
      | some (eff, .error e) =>
          (⟨eff.out ++ ["Error executing " ++ commandType ++ ": " ++ e.message], eff.events⟩, 1)
      | none =>
          (⟨["Error: Unknown command type \x27" ++ commandType ++ "\x27"], []⟩, 1)
  | _ =>
      (⟨["Error: Insufficient arguments",
         "Usage: python automation_runner.py <command_type> <parameter>"], []⟩, 1)

/-! ## Demonstration environments used by witnesses and counterexamples -/

/-- Environment whose parser yields the descriptor `d` for every document and
whose process launches always succeed. -/
def demoEnv (d : Json) : Env := ⟨fun _ => some d, "C:\\Users\\demo", fun _ => none⟩

/-- A well-formed `search_google` descriptor (spec Scenario 1). -/
def c1Desc : Json :=
  Json.obj [("action", Json.str "search_google"),
            ("params", Json.obj [("query", Json.str "weather today")])]

/-- C1: for every executor, every descriptor that parses to an object whose
`action` is a recognized kind and whose required parameter (`query`, `url`,
`app_name` respectively) is a non-empty string, `process_action` runs exactly
the executor operation matching the kind — its printed lines and OS events are
exactly that one operation's, so no other operation is invoked — and returns
the boolean that operation reports. -/
theorem c1_valid_dispatch_exactly_one (ex : Executor) (env : Env) (s : String)
    (fs : List (String × Json)) (hp : env.parse s = some (Json.obj fs)) :
    (∀ ps q eff b,
        lookupField fs "action" = some (Json.str "search_google") →
        paramsOf fs = Json.obj ps →
        lookupField ps "query" = some (Json.str q) → q ≠ "" →
        ex.search_google (Json.str q) = (eff, Except.ok b) →
        processActionWith ex env s = (eff, b)) ∧
    (∀ ps u eff b,
        lookupField fs "action" = some (Json.str "open_web_app") →
        paramsOf fs = Json.obj ps →
        lookupField ps "url" = some (Json.str u) → u ≠ "" →
        ex.open_web_app (Json.str u) = (eff, Except.ok b) →
        processActionWith ex env s = (eff, b)) ∧
    (∀ ps a eff b,
        lookupField fs "action" = some (Json.str "open_desktop_app") →
        paramsOf fs = Json.obj ps →
        lookupField ps "app_name" = some (Json.str a) → a ≠ "" →
        ex.open_desktop_app (Json.str a) = (eff, Except.ok b) →
        processActionWith ex env s = (eff, b)) := by
  refine ⟨?_, ?_, ?_⟩ <;>
    · intro ps v eff b ha hps hv hvne hex
      have hps' : (lookupField fs "params").getD (Json.obj []) = Json.obj ps := hps
      simp only [processActionWith, processActionBodyWith, hp, Json.dictGet, Json.dictGetD]
      rw [ha, hps']
      simp [Json.truthy, Json.eqStr, hv, hvne, hex]

/-- C1 witness: Scenario 1 run concretely through the real executor. -/
theorem c1_valid_dispatch_exactly_one_witness :
    processActionWith (realExecutor (demoEnv c1Desc)) (demoEnv c1Desc) "d" =
      (⟨["[JARVIS] Searching Google for: \x27weather today\x27",
         "[JARVIS] Search completed for: \x27weather today\x27"],
        [Event.browserOpen "https://www.google.com", Event.sleep 2,
         Event.keyWrite "weather today", Event.keyPress "enter"]⟩, true) :=
  (c1_valid_dispatch_exactly_one (realExecutor (demoEnv c1Desc)) (demoEnv c1Desc) "d"
      _ rfl).1
    [("query", Json.str "weather today")] "weather today" _ true
    rfl rfl rfl (by decide) rfl

/-- C3: `open_desktop_app` on any string lower-cases the name and hands
`subprocess.Popen` the argv given by the alias table (`launchArgv`, enumerated
below), falling back to the lower-cased name itself; its trace is exactly the
one process-creation attempt (fire-and-forget, no wait), and it reports failure
precisely when process creation raises, success precisely when it does not. -/
theorem c3_open_desktop_app_contract (env : Env) (s : String) :
    (open_desktop_app env (Json.str s)).fst.events = [Event.popen (launchArgv env (strLower s))] ∧
    ((open_desktop_app env (Json.str s)).snd = Except.ok false ↔
      env.popenError (launchArgv env (strLower s)) ≠ none) ∧
    ((open_desktop_app env (Json.str s)).snd = Except.ok true ↔
      env.popenError (launchArgv env (strLower s)) = none) ∧
    (launchArgv env "spotify" = [env.home ++ "\\AppData\\Roaming\\Spotify\\Spotify.exe"] ∧
     launchArgv env "notepad" = ["notepad"] ∧
     launchArgv env "calculator" = ["calc"] ∧
     launchArgv env "vscode" = ["code"] ∧
     launchArgv env "visual studio code" = ["code"] ∧
     launchArgv env "explorer" = ["explorer"] ∧
     launchArgv env "file explorer" = ["explorer"]) ∧
    (strLower s ∉ ["spotify", "notepad", "calculator", "vscode", "visual studio code",
        "explorer", "file explorer"] →
      launchArgv env (strLower s) = [strLower s]) := by
  refine ⟨?_, ?_, ?_, ⟨rfl, rfl, rfl, rfl, rfl, rfl, rfl⟩, ?_⟩
  · simp only [open_desktop_app, Json.pyStr]
    cases h : env.popenError (launchArgv env (strLower s)) <;> simp [h]
  · simp only [open_desktop_app, Json.pyStr]
    cases h : env.popenError (launchArgv env (strLower s)) <;> simp [h]
  · simp only [open_desktop_app, Json.pyStr]
    cases h : env.popenError (launchArgv env (strLower s)) <;> simp [h]
  · intro hmem
    simp only [List.mem_cons, List.not_mem_nil, or_false, not_or] at hmem
    obtain ⟨h1, h2, h3, h4, h5, h6, h7⟩ := hmem
    simp [launchArgv, h1, h2, h3, h4, h5, h6, h7]

/-- C3 witness: an unaliased name falls back to its lower-cased literal, and
with a succeeding `Popen` the operation reports success. -/
theorem c3_open_desktop_app_contract_witness :
    launchArgv (demoEnv c1Desc) "firefox" = ["firefox"] ∧
    (open_desktop_app (demoEnv c1Desc) (Json.str "Firefox")).snd = Except.ok true :=
  ⟨(c3_open_desktop_app_contract (demoEnv c1Desc) "Firefox").2.2.2.2 (by decide),
   (c3_open_desktop_app_contract (demoEnv c1Desc) "Firefox").2.2.1.mpr rfl⟩

/-- C9: `search_google` issues its fixed sequence — browser open on Google,
settle delay, type the query, press enter — and returns `True` unconditionally,
and `open_web_app` opens the URL and returns `True` unconditionally; neither
ever reports failure. -/
theorem c9_search_and_web_always_succeed (q u : String) :
    search_google (Json.str q) =
      (⟨["[JARVIS] Searching Google for: \x27" ++ q ++ "\x27",
         "[JARVIS] Search completed for: \x27" ++ q ++ "\x27"],
        [Event.browserOpen "https://www.google.com", Event.sleep 2,
         Event.keyWrite q, Event.keyPress "enter"]⟩, Except.ok true) ∧
    open_web_app (Json.str u) =
      (⟨["[JARVIS] Opening web app: " ++ u, "[JARVIS] Opened web app: " ++ u],
        [Event.browserOpen u]⟩, Except.ok true) :=
  ⟨rfl, rfl⟩

/-- The required parameter key of each recognized kind (claim C4's table). -/
def requiredKey : String → String
  | "search_google" => "query"
  | "open_web_app" => "url"
  | _ => "app_name"

/-- The message `process_action` prints when the required parameter of the
matched kind is missing or falsy. -/
def missingParamMsg : String → String
  | "search_google" => "Error: No query provided for search_google action"
  | "open_web_app" => "Error: No URL provided for open_web_app action"
  | _ => "Error: No app_name provided for open_desktop_app action"

/-- C4: for every executor and every descriptor with a recognized kind whose
required parameter key is absent or maps to the empty string, `process_action`
returns failure with the missing-parameter message and an empty event trace —
no browser is opened and no process is launched, and since this holds for
every executor, no executor operation is invoked at all. -/
theorem c4_missing_param_no_effect (ex : Executor) (env : Env) (s k : String)
    (fs ps : List (String × Json))
    (hp : env.parse s = some (Json.obj fs))
    (hk : k = "search_google" ∨ k = "open_web_app" ∨ k = "open_desktop_app")
    (ha : lookupField fs "action" = some (Json.str k))
    (hps : paramsOf fs = Json.obj ps)
    (hmiss : lookupField ps (requiredKey k) = none ∨
             lookupField ps (requiredKey k) = some (Json.str "")) :
    processActionWith ex env s = (⟨[missingParamMsg k], []⟩, false) := by
  have hps' : (lookupField fs "params").getD (Json.obj []) = Json.obj ps := hps
  rcases hk with hk | hk | hk <;> subst hk
  · replace hmiss : lookupField ps "query" = none ∨
        lookupField ps "query" = some (Json.str "") := hmiss
    simp only [processActionWith, processActionBodyWith, hp, Json.dictGet, Json.dictGetD]
    rw [ha, hps']
    rcases hmiss with hm | hm <;> simp [Json.truthy, Json.eqStr, hm, missingParamMsg]
  · replace hmiss : lookupField ps "url" = none ∨
        lookupField ps "url" = some (Json.str "") := hmiss
    simp only [processActionWith, processActionBodyWith, hp, Json.dictGet, Json.dictGetD]
    rw [ha, hps']
    rcases hmiss with hm | hm <;> simp [Json.truthy, Json.eqStr, hm, missingParamMsg]
  · replace hmiss : lookupField ps "app_name" = none ∨
        lookupField ps "app_name" = some (Json.str "") := hmiss
    simp only [processActionWith, processActionBodyWith, hp, Json.dictGet, Json.dictGetD]
    rw [ha, hps']
    rcases hmiss with hm | hm <;> simp [Json.truthy, Json.eqStr, hm, missingParamMsg]

/-- A `search_google` descriptor whose `query` is the empty string. -/
def c4Desc : Json :=
  Json.obj [("action", Json.str "search_google"),
            ("params", Json.obj [("query", Json.str "")])]

/-- C4 witness: empty `query` on `search_google` is rejected with no events. -/
theorem c4_missing_param_no_effect_witness :
    processActionWith (realExecutor (demoEnv c4Desc)) (demoEnv c4Desc) "d" =
      (⟨["Error: No query provided for search_google action"], []⟩, false) :=
  c4_missing_param_no_effect (realExecutor (demoEnv c4Desc)) (demoEnv c4Desc) "d"
    "search_google" _ [("query", Json.str "")] rfl (Or.inl rfl) rfl rfl (Or.inr rfl)

/-- Does the first list start with the second? (kernel-reducible helper for
"the message mentions the value"). -/
def charsLead : List Char → List Char → Bool
  | _, [] => true
  | [], _ :: _ => false
  | h :: hs, c :: cs => h == c && charsLead hs cs

/-- Does `needle` occur as a substring starting at some position of `hay`? -/
def charsHaveSub (needle : List Char) : List Char → Bool
  | [] => needle.isEmpty
  | h :: hs => charsLead (h :: hs) needle || charsHaveSub needle hs

/-- Does `needle` occur as a substring of `hay`? (kernel-reducible, unlike
`String.containsSubstr`). -/
def strContainsSub (hay needle : String) : Bool :=
  charsHaveSub needle.data hay.data

/-- A descriptor whose `action` field is present but is the falsy value `0`. -/
def c5Desc : Json := Json.obj [("action", Json.num 0)]

/-- C5 counterexample: on `\x7b"action": 0\x7d` the action field is present and
unrecognized, `process_action` returns `False` with no events, but its only
output line is the generic "No action specified" message, which does not
mention the offending value `0` — so the claim's "reporting the offending
value when one is present" fails as stated. -/
theorem c5_unknown_action_counterexample :
    (demoEnv c5Desc).parse "d" = some (Json.obj [("action", Json.num 0)]) ∧
    process_action (demoEnv c5Desc) "d" =
      (⟨["Error: No action specified in the JSON"], []⟩, false) ∧
    strContainsSub "Error: No action specified in the JSON" (Json.num 0).pyStr = false :=
  ⟨rfl, rfl, rfl⟩

/-- C5 amended: for every executor, a descriptor whose `action` field is
absent, or present but falsy (empty string, `0`, `false`, `null`, ...), fails
with the generic "No action specified" message, and one whose `action` is
present, truthy and not one of the three recognized kinds fails with the
unknown-action message naming the value; in every case the result is `False`
and the event trace is empty, so no executor operation is invoked. -/
theorem c5_unknown_action_no_effect (ex : Executor) (env : Env) (s : String)
    (fs : List (String × Json)) (hp : env.parse s = some (Json.obj fs)) :
    (lookupField fs "action" = none →
       processActionWith ex env s =
         (⟨["Error: No action specified in the JSON"], []⟩, false)) ∧
    (∀ a, lookupField fs "action" = some a → a.truthy = false →
       processActionWith ex env s =
         (⟨["Error: No action specified in the JSON"], []⟩, false)) ∧
    (∀ a, lookupField fs "action" = some a → a.truthy = true →
       a.eqStr "search_google" = false → a.eqStr "open_web_app" = false →
       a.eqStr "open_desktop_app" = false →
       processActionWith ex env s =
         (⟨["Error: Unknown action type \x27" ++ a.pyStr ++ "\x27"], []⟩, false)) := by
  refine ⟨?_, ?_, ?_⟩
  · intro ha
    simp only [processActionWith, processActionBodyWith, hp, Json.dictGet, Json.dictGetD]
    rw [ha]
    simp [Json.truthy]
  · intro a ha hfalsy
    simp only [processActionWith, processActionBodyWith, hp, Json.dictGet, Json.dictGetD]
    rw [ha]
    simp [hfalsy]
  · intro a ha htruthy h1 h2 h3
    simp only [processActionWith, processActionBodyWith, hp, Json.dictGet, Json.dictGetD]
    rw [ha]
    simp [htruthy, h1, h2, h3]

/-- The spec's example of an unrecognized action. -/
def c5bDesc : Json :=
  Json.obj [("action", Json.str "delete_everything"), ("params", Json.obj [])]

/-- C5 witness: `"delete_everything"` is rejected by name with no events. -/
theorem c5_unknown_action_no_effect_witness :
    processActionWith (realExecutor (demoEnv c5bDesc)) (demoEnv c5bDesc) "d" =
      (⟨["Error: Unknown action type \x27delete_everything\x27"], []⟩, false) :=
  (c5_unknown_action_no_effect (realExecutor (demoEnv c5bDesc)) (demoEnv c5bDesc) "d"
      _ rfl).2.2 (Json.str "delete_everything") rfl rfl rfl rfl rfl

/-- An environment in which launching `calc` (the `calculator` alias) fails:
`subprocess.Popen(["calc"])` raises a `FileNotFoundError`. -/
def c2Env : Env :=
  ⟨fun _ => none, "C:\\Users\\demo",
   fun argv => if argv = ["calc"] then
     some "[WinError 2] The system cannot find the file specified" else none⟩

/-- C2 counterexample: in two-argument mode `open_desktop_app calculator` with
a failing process creation makes the executor operation report failure
(`False`, its LaunchError), yet `automation_runner.main` ignores the returned
boolean and the process exits with code 0, not 1. -/
theorem c2_runner_ignores_failure_counterexample :
    (open_desktop_app c2Env (Json.str "calculator")).snd = Except.ok false ∧
    (automation_runner_main c2Env
        ["automation_runner.py", "open_desktop_app", "calculator"]).snd = 0 :=
  ⟨rfl, rfl⟩

/-- C2 amended: a failing dispatched operation always prints a message naming
the failure reason — for `open_desktop_app` the error-launching line carrying
the OS error — and in single-argument mode a failure result from
`process_action` always yields exit code 1; but in two-argument mode the
runner discards the operation's boolean, so a failure reported by return value
(a LaunchError) still prints its message yet exits with code 0, and exit code
1 occurs exactly when arguments are missing or the command type is
unrecognized (a recognized command always exits 0 there: on string arguments
none of the three operations lets an exception escape). -/
theorem c2_exit_codes_amended :
    (∀ (env : Env) (prog s : String) (rest : List String),
       (process_action env s).snd = false →
       (action_processor_main env (prog :: s :: rest)).snd = 1) ∧
    (∀ (env : Env) (a0 p : String) (rest : List String) (m : String),
       env.popenError (launchArgv env (strLower p)) = some m →
       automation_runner_main env (a0 :: "open_desktop_app" :: p :: rest) =
         (⟨["[JARVIS] Launching desktop app: " ++ p,
            "[JARVIS] Error launching " ++ strLower p ++ ": " ++ m],
           [Event.popen (launchArgv env (strLower p))]⟩, 0)) ∧
    (∀ (env : Env) (a0 ct p : String) (rest : List String),
       (automation_runner_main env (a0 :: ct :: p :: rest)).snd =
         if ct = "search_google" ∨ ct = "open_web_app" ∨ ct = "open_desktop_app"
         then 0 else 1) ∧
    (∀ (env : Env) (argv : List String), argv.length < 3 →
       (automation_runner_main env argv).snd = 1) := by
  refine ⟨?_, ?_, ?_, ?_⟩
  · intro env prog s rest h
    simp [action_processor_main, h]
  · intro env a0 p rest m hm
    simp [automation_runner_main, open_desktop_app, Json.pyStr, hm]
  · intro env a0 ct p rest
    by_cases h1 : ct = "search_google"
    · subst h1
      simp [automation_runner_main, search_google]
    · by_cases h2 : ct = "open_web_app"
      · subst h2
        simp [automation_runner_main, open_web_app]
      · by_cases h3 : ct = "open_desktop_app"
        · subst h3
          cases h : env.popenError (launchArgv env (strLower p)) <;>
            simp [automation_runner_main, open_desktop_app, h, h1, h2]
        · simp [automation_runner_main, h1, h2, h3]
  · intro env argv h
    match argv with
    | [] => rfl
    | [_] => rfl
    | [_, _] => rfl
    | _ :: _ :: _ :: _ =>
      simp only [List.length_cons] at h
      omega

/-- C2 amended witness: a failing single-argument run exits 1; the failing
two-argument `open_desktop_app calculator` run prints the LaunchError message
naming the OS error yet exits 0; an unknown command exits 1; and a missing
second argument exits 1. -/
theorem c2_exit_codes_amended_witness :
    (action_processor_main c2Env ["action_processor.py", "not valid json"]).snd = 1 ∧
    automation_runner_main c2Env
        ["automation_runner.py", "open_desktop_app", "calculator"] =
      (⟨["[JARVIS] Launching desktop app: calculator",
         "[JARVIS] Error launching calculator: [WinError 2] The system cannot find the file specified"],
        [Event.popen ["calc"]]⟩, 0) ∧
    (automation_runner_main c2Env ["automation_runner.py", "delete_everything", "x"]).snd = 1 ∧
    (automation_runner_main c2Env ["automation_runner.py", "open_desktop_app"]).snd = 1 :=
  ⟨c2_exit_codes_amended.1 c2Env "action_processor.py" "not valid json" [] rfl,
   c2_exit_codes_amended.2.1 c2Env "automation_runner.py" "calculator" [] _ rfl,
   (c2_exit_codes_amended.2.2.1 c2Env "automation_runner.py" "delete_everything" "x" []).trans
     (by decide),
   c2_exit_codes_amended.2.2.2 c2Env ["automation_runner.py", "open_desktop_app"] (by decide)⟩

/-- C6: on any input the JSON parser rejects, the modelled `process_action`
prints the invalid-JSON message and returns `False` with no events for every
executor, and the modelled single-argument entry point exits with code 1.
(The committed `action_processor.py` cannot actually reach this code: its
usage print is a Python SyntaxError, so the module fails to load; see
`processorUsageLine`.) -/
theorem c6_malformed_input_model (ex : Executor) (env : Env) (s : String)
    (hp : env.parse s = none) :
    processActionWith ex env s =
      (⟨["Error: Invalid JSON format: " ++ s], []⟩, false) ∧
    (∀ (prog : String) (rest : List String),
       (action_processor_main env (prog :: s :: rest)).snd = 1) := by
  constructor
  · simp [processActionWith, processActionBodyWith, hp]
  · intro prog rest
    simp [action_processor_main, process_action, processActionWith,
      processActionBodyWith, hp]

/-- An environment whose parser rejects every document. -/
def c6Env : Env := ⟨fun _ => none, "C:\\Users\\demo", fun _ => none⟩

/-- C6 witness: spec Scenario 4, `not valid json`. -/
theorem c6_malformed_input_model_witness :
    processActionWith (realExecutor c6Env) c6Env "not valid json" =
      (⟨["Error: Invalid JSON format: not valid json"], []⟩, false) ∧
    (action_processor_main c6Env ["action_processor.py", "not valid json"]).snd = 1 :=
  ⟨(c6_malformed_input_model (realExecutor c6Env) c6Env "not valid json" rfl).1,
   (c6_malformed_input_model (realExecutor c6Env) c6Env "not valid json" rfl).2
     "action_processor.py" []⟩

/-- C7: `process_action` never lets an exception escape: whatever the executor
and input, if the `try:` body completes with a boolean it returns exactly that
boolean with the body's effects, and if the body raises any non-JSONDecode
exception it returns `False`, appending only the execution-error line carrying
the exception's message. -/
theorem c7_exceptions_converted (ex : Executor) (env : Env) (s : String) :
    (∀ eff b, processActionBodyWith ex env s = (eff, Except.ok b) →
        processActionWith ex env s = (eff, b)) ∧
    (∀ eff e, processActionBodyWith ex env s = (eff, Except.error e) →
        (∀ d, e ≠ Exn.jsonDecode d) →
        processActionWith ex env s =
          (⟨eff.out ++ ["Error processing action: " ++ e.message], eff.events⟩, false)) := by
  constructor
  · intro eff b h
    simp [processActionWith, h]
  · intro eff e h hne
    cases e with
    | jsonDecode d => exact absurd rfl (hne d)
    | attrError m => simp [processActionWith, h, Exn.message]
    | typeError m => simp [processActionWith, h, Exn.message]
    | osError m => simp [processActionWith, h, Exn.message]

/-- An environment whose parser yields a JSON list for every document. -/
def c7Env : Env := ⟨fun _ => some (Json.arr [Json.num 1]), "", fun _ => none⟩

/-- C7 witness: the `AttributeError` raised by `.get` on a JSON list is caught
and converted to a failure result carrying the underlying message. -/
theorem c7_exceptions_converted_witness :
    processActionWith (realExecutor c7Env) c7Env "[1]" =
      (⟨["Error processing action: \x27list\x27 object has no attribute \x27get\x27"], []⟩,
       false) :=
  (c7_exceptions_converted (realExecutor c7Env) c7Env "[1]").2 ⟨[], []⟩
    (Exn.attrError "\x27list\x27 object has no attribute \x27get\x27") rfl
    (fun _ h => nomatch h)

/-- C8: `automation_runner.main` with fewer than two command-line arguments
(fewer than three `sys.argv` entries) prints the usage error and exits with
code 1, with no OS events — no executor operation is reached. -/
theorem c8_runner_usage_error (env : Env) (argv : List String)
    (h : argv.length < 3) :
    automation_runner_main env argv =
      (⟨["Error: Insufficient arguments",
         "Usage: python automation_runner.py <command_type> <parameter>"], []⟩, 1) := by
  match argv with
  | [] => rfl
  | [_] => rfl
  | [_, _] => rfl
  | _ :: _ :: _ :: _ =>
    simp only [List.length_cons] at h
    omega

/-- C8 witness: `open_desktop_app` alone (missing its second argument). -/
theorem c8_runner_usage_error_witness :
    automation_runner_main c6Env ["automation_runner.py", "open_desktop_app"] =
      (⟨["Error: Insufficient arguments",
         "Usage: python automation_runner.py <command_type> <parameter>"], []⟩, 1) :=
  c8_runner_usage_error c6Env ["automation_runner.py", "open_desktop_app"] (by decide)

/-- C10: for every executor, an input that parses to a non-object JSON value
(list, number, string, boolean or null) makes `process_action` return `False`
with no events: the `AttributeError` from treating the value as a mapping is
caught by the catch-all handler and printed, and no executor operation runs. -/
theorem c10_non_object_json (ex : Executor) (env : Env) (s : String) (j : Json)
    (hp : env.parse s = some j) (hno : j.isObj = false) :
    processActionWith ex env s =
      (⟨["Error processing action: \x27" ++ j.typeName ++
          "\x27 object has no attribute \x27get\x27"], []⟩, false) := by
  cases j <;>
    simp_all [processActionWith, processActionBodyWith, Json.dictGet, Json.isObj,
      Json.typeName, Exn.message]

/-- An environment whose parser yields a bare JSON string for every document. -/
def c10Env : Env := ⟨fun _ => some (Json.str "hello"), "", fun _ => none⟩

/-- C10 witness: a parsed bare string is rejected through the catch-all. -/
theorem c10_non_object_json_witness :
    processActionWith (realExecutor c10Env) c10Env "\"hello\"" =
      (⟨["Error processing action: \x27str\x27 object has no attribute \x27get\x27"], []⟩,
       false) :=
  c10_non_object_json (realExecutor c10Env) c10Env "\"hello\"" (Json.str "hello") rfl rfl
